import Mathlib

/-!
Verification of the swiss-system common module (swisssystems/common.cpp) of
bbpPairings: the pairing publication sorter (sortResults), the color-history
scanner (skipUnplayedGames / findFirstColorDifference), the checklist report
assembly (printChecklist and its helpers), and the system-variant lookup
(getInfo).

Machine integers of the C++ code (player indices, scores in tenths of a
point, rank indices, round counts) are modelled as Nat: all of them are
unsigned integral types used only for indexing, comparison and bounded
arithmetic, with no overflowing operations in the code under study.
-/

/-- tournament::Color (COLOR_WHITE, COLOR_BLACK, COLOR_NONE). -/
inductive Color where
  | white
  | black
  | none
deriving DecidableEq

/-- tournament::Match: the opponent index, the color this player held, and
whether the game was actually played. -/
structure Match where
  opponent : Nat
  color : Color
  gameWasPlayed : Bool
deriving DecidableEq

/-- tournament::Player. `scoreWithAcceleration` is a method of the Player
class in tournament.h (not part of the sources under study); the spec lists
the accelerated score as its own datum of the Player, so it is modelled as a
field. Matches are in chronological (round) order. -/
structure Player where
  id : Nat
  scoreWithoutAcceleration : Nat
  scoreWithAcceleration : Nat
  rankIndex : Nat
  colorPreference : Color
  absoluteColorPreference : Bool
  strongColorPreference : Bool
  «matches» : List Match
deriving DecidableEq

/-- swisssystems::Pairing: white and black player indices; white == black
denotes a bye. -/
structure Pairing where
  white : Nat
  black : Nat
deriving DecidableEq

/-- tournament::Tournament: the player sequence and the number of played
rounds. -/
structure Tournament where
  players : List Player
  playedRounds : Nat
deriving DecidableEq

/-- Out-of-range access into the player vector is undefined behavior in the
C++; theorems needing the vector access place bounds hypotheses, and this
default value is never relevant under them. -/
def defaultPlayer : Player :=
  { id := 0, scoreWithoutAcceleration := 0, scoreWithAcceleration := 0,
    rankIndex := 0, colorPreference := Color.none,
    absoluteColorPreference := false, strongColorPreference := false,
    «matches» := [] }

/-- tournament.players[i]. -/
def Tournament.player (t : Tournament) (i : Nat) : Player :=
  t.players.getD i defaultPlayer

/-- skipUnplayedGames: advance the (reverse) iterator to the next played
game, stopping at the end if none is found. The list argument is the
remaining part of the backward traversal (most recent round first). -/
def skipUnplayedGames : List Match → List Match
  | [] => []
  | m :: rest => if m.gameWasPlayed then m :: rest else skipUnplayedGames rest

/-- The color under a (reverse) iterator, or COLOR_NONE at the end:
`iterator == rend ? COLOR_NONE : iterator->color`. -/
def headColorOrNone : List Match → Color
  | [] => Color.none
  | m :: _ => m.color

/-- The while loop of findFirstColorDifference. Both arguments have already
been passed through skipUnplayedGames. While both iterators are not at the
end and the colors agree, each iterator is advanced one step and then skipped
to the next played game; on exit each player's color is read off the final
iterator position (COLOR_NONE for an iterator at the end). -/
def colorDiffLoop : List Match → List Match → Color × Color
  | [], l1 => (Color.none, headColorOrNone l1)
  | m0 :: _, [] => (m0.color, Color.none)
  | m0 :: t0, m1 :: t1 =>
    if m0.color = m1.color then
      colorDiffLoop (skipUnplayedGames t0) (skipUnplayedGames t1)
    else
      (m0.color, m1.color)
termination_by l0 _ => l0.length
decreasing_by
  have hlen : ∀ l : List Match, (skipUnplayedGames l).length ≤ l.length := by
    intro l
    induction l with
    | nil => simp [skipUnplayedGames]
    | cons m rest ih =>
      simp only [skipUnplayedGames]
      by_cases h : m.gameWasPlayed = true
      · simp [h]
      · simp [h]
        omega
  have := hlen t0
  simp only [List.length_cons]
  omega

/-- findFirstColorDifference: the colors of the two players on the most
recent round in which they differed. The C++ walks reverse iterators over
player.matches; here the reversed match list plays that role. -/
def findFirstColorDifference (player0 player1 : Player) : Color × Color :=
  colorDiffLoop
    (skipUnplayedGames player0.«matches».reverse)
    (skipUnplayedGames player1.«matches».reverse)

/-- A player's played-game colors, most recent round first (the sequence the
backward scan of findFirstColorDifference traverses). -/
def playedColors (player : Player) : List Color :=
  (player.«matches».reverse.filter (fun m => m.gameWasPlayed)).map
    (fun m => m.color)

/-- Drop the longest common prefix of two color sequences, keeping the two
remainders. -/
def dropCommonRun : List Color → List Color → List Color × List Color
  | c0 :: t0, c1 :: t1 =>
    if c0 = c1 then dropCommonRun t0 t1 else (c0 :: t0, c1 :: t1)
  | r0, r1 => (r0, r1)

/-- The scanner contract as the spec words it (`mostRecentDivergence`):
align the two played-color histories most-recent-first, drop the common
prefix, and return the first remaining color on each side, or no-color for
an exhausted side. -/
def mostRecentDivergence (player0 player1 : Player) : Color × Color :=
  let rest := dropCommonRun (playedColors player0) (playedColors player1)
  (rest.1.headD Color.none, rest.2.headD Color.none)

/-- std::tuple operator< on (bool, score, score, rank) tuples:
lexicographic, with false < true on the bool. -/
def tupleLt : Bool × Nat × Nat × Nat → Bool × Nat × Nat × Nat → Bool
  | (a0, a1, a2, a3), (b0, b1, b2, b3) =>
    (!a0 && b0) ||
      (a0 == b0 &&
        (decide (a1 < b1) ||
          (a1 == b1 &&
            (decide (a2 < b2) || (a2 == b2 && decide (a3 < b3))))))

/-- higherInPair0 / higherInPair1 of the sortResults comparator:
`unacceleratedScoreRankCompare(&players[white], &players[black]) ? black
: white`. The comparison `cmp` (tournament::unacceleratedScoreRankCompare,
declared in tournament.h, outside the sources under study) is the external
unaccelerated-score-rank comparison and is kept as a parameter. -/
def higherInPair (t : Tournament) (cmp : Player → Player → Bool)
    (pair : Pairing) : Nat :=
  if cmp (t.player pair.white) (t.player pair.black) then pair.black
  else pair.white

/-- lowerInPair0 / lowerInPair1 of the sortResults comparator:
`pair.white == higherInPair ? pair.black : pair.white`. -/
def lowerInPair (t : Tournament) (cmp : Player → Player → Bool)
    (pair : Pairing) : Nat :=
  if pair.white == higherInPair t cmp pair then pair.black else pair.white

/-- The comparator lambda passed to pairs.sort in sortResults, transcribed
tuple for tuple (note the cross-placement of pair0/pair1 components). -/
def pairCompare (t : Tournament) (cmp : Player → Player → Bool)
    (pair0 pair1 : Pairing) : Bool :=
  tupleLt
    (pair0.white == pair0.black,
      (t.player (higherInPair t cmp pair1)).scoreWithoutAcceleration,
      (t.player (lowerInPair t cmp pair1)).scoreWithoutAcceleration,
      (t.player (higherInPair t cmp pair0)).rankIndex)
    (pair1.white == pair1.black,
      (t.player (higherInPair t cmp pair0)).scoreWithoutAcceleration,
      (t.player (lowerInPair t cmp pair0)).scoreWithoutAcceleration,
      (t.player (higherInPair t cmp pair1)).rankIndex)

/-- sortResults: std::list::sort is a stable comparison sort with strict
comparator `pairCompare`; a stable sort is fully determined by the
non-strict relation `fun a b => pairCompare t cmp b a = false` together
with the input order, so it is modelled by the stable insertionSort on that
relation. -/
def sortResults (t : Tournament) (cmp : Player → Player → Bool)
    (pairs : List Pairing) : List Pairing :=
  pairs.insertionSort (fun pair0 pair1 => pairCompare t cmp pair1 pair0 = false)

/-- The colors of the played games of a match list, in list order. -/
def matchColors (l : List Match) : List Color :=
  (l.filter (fun m => m.gameWasPlayed)).map (fun m => m.color)

/-- A list whose head, if any, is a played game (the state of an iterator
that has gone through skipUnplayedGames). -/
def headPlayed (l : List Match) : Prop :=
  ∀ m t, l = m :: t → m.gameWasPlayed = true

/-- The per-pairing components entering the sortResults comparator: bye
flag, higher player's unaccelerated score, lower player's unaccelerated
score, higher player's rank index. -/
def pairingKey (t : Tournament) (cmp : Player → Player → Bool)
    (pair : Pairing) : Bool × Nat × Nat × Nat :=
  (pair.white == pair.black,
    (t.player (higherInPair t cmp pair)).scoreWithoutAcceleration,
    (t.player (lowerInPair t cmp pair)).scoreWithoutAcceleration,
    (t.player (higherInPair t cmp pair)).rankIndex)

/-- The sortResults comparator as a function of the two pairings' keys:
lexicographic with ascending bye flag, descending higher score, descending
lower score, ascending rank index. -/
def keyLt (k0 k1 : Bool × Nat × Nat × Nat) : Bool :=
  tupleLt (k0.1, k1.2.1, k1.2.2.1, k0.2.2.2) (k1.1, k0.2.1, k0.2.2.1, k1.2.2.2)

/-- The exceptions the report-assembly boundary can catch: std::length_error
and std::bad_alloc. -/
inductive ReportError where
  | lengthError
  | badAlloc
deriving DecidableEq

/-- The result of a step of checklist assembly: a value, a thrown exception
(recoverable at the printChecklist boundary), or an assertion failure /
out-of-range access (a fatal contract violation, not recoverable). -/
inductive Outcome (α : Type) where
  | ok : α → Outcome α
  | err : ReportError → Outcome α
  | undef : Outcome α
deriving DecidableEq

/-- Sequencing with exception/contract-violation propagation. -/
def Outcome.bind {α β : Type} : Outcome α → (α → Outcome β) → Outcome β
  | Outcome.ok a, f => f a
  | Outcome.err e, _ => Outcome.err e
  | Outcome.undef, _ => Outcome.undef

/-- std::string::npos for a 64-bit size_t. -/
def nposVal : Nat := 2 ^ 64 - 1

/-- std::numeric_limits of int, max(), for a 32-bit int. -/
def intMax : Nat := 2 ^ 31 - 1

/-- utility::uintstringconversion::toString on an unsigned value. -/
def toStringNat (n : Nat) : String := toString n

/-- utility::uintstringconversion::toString with one decimal place (scores
are stored in tenths of a point). -/
def toStringTenths (n : Nat) : String :=
  toStringNat (n / 10) ++ "." ++ toStringNat (n % 10)

/-- getHeader: the deque of column headers; throws std::length_error when
the played-round count reaches std::string::npos. -/
def getHeader (specialtyHeaders : List String) (t : Tournament) :
    Outcome (List String) :=
  if t.playedRounds ≥ nposVal then Outcome.err ReportError.lengthError
  else
    Outcome.ok
      ((["ID", "Pts",
          String.mk (List.replicate (t.playedRounds + 1) '-'), "Pref"]
        ++ specialtyHeaders ++ [""])
        ++ (List.range t.playedRounds).map
            (fun roundIndex => "R" ++ toStringNat (roundIndex + 1)))

/-- The compact color-history string of getRow: one character per played
game. -/
def colorString (player : Player) : String :=
  String.mk ((player.«matches».filter (fun m => m.gameWasPlayed)).map
    (fun m => if m.color = Color.white then 'W' else 'B'))

/-- The color-preference indicator column of getRow. -/
def preferenceString (player : Player) : String :=
  if player.absoluteColorPreference then
    if player.colorPreference = Color.white then "W " else "B "
  else if player.strongColorPreference then
    if player.colorPreference = Color.white then "(W)" else "(B)"
  else if player.colorPreference = Color.none then "A "
  else if player.colorPreference = Color.white then "w " else "b "

/-- The per-round columns of getRow: for each roundIndex below the bound the
C++ reads player.matches[roundIndex] through std::deque operator[], which is
unchecked; an out-of-range index is undefined behavior, modelled as
Outcome.undef. -/
def roundColumns (player : Player) : Nat → Outcome (List String)
  | 0 => Outcome.ok []
  | n + 1 =>
    Outcome.bind (roundColumns player n) (fun cells =>
      match player.«matches».get? n with
      | Option.some m =>
        Outcome.ok
          (cells ++ [if m.gameWasPlayed then toStringNat (m.opponent + 1) else ""])
      | Option.none => Outcome.undef)

/-- getRow: one row of checklist values for a player. -/
def getRow (specialtyColumns : List String) (player : Player)
    (t : Tournament) : Outcome (List String) :=
  Outcome.bind (roundColumns player t.playedRounds) (fun cells =>
    Outcome.ok
      (([toStringNat (player.id + 1),
         toStringTenths player.scoreWithAcceleration,
         colorString player, preferenceString player]
        ++ specialtyColumns ++ [""]) ++ cells))

/-- updateColumnWidths: widen each column to fit the row. A string longer
than INT_MAX throws std::length_error; the asserts pinning the two lengths
to each other fail (Outcome.undef) on a length mismatch. -/
def updateColumnWidths : List Nat → List String → Outcome (List Nat)
  | [], [] => Outcome.ok []
  | _ :: _, [] => Outcome.undef
  | [], _ :: _ => Outcome.undef
  | w :: ws, s :: ss =>
    if s.length > intMax then Outcome.err ReportError.lengthError
    else
      Outcome.bind (updateColumnWidths ws ss) (fun rest =>
        Outcome.ok (max w s.length :: rest))

/-- The first loop of printChecklist: seed the column widths with the header
string lengths, throwing std::length_error past INT_MAX. -/
def initialWidths : List String → Outcome (List Nat)
  | [] => Outcome.ok []
  | s :: rest =>
    if s.length > intMax then Outcome.err ReportError.lengthError
    else Outcome.bind (initialWidths rest) (fun ws => Outcome.ok (s.length :: ws))

/-- The second loop of printChecklist: fold updateColumnWidths over each
ordered player's row. -/
def computeWidthsLoop (specialtyValues : Player → Outcome (List String))
    (t : Tournament) : List Nat → List Player → Outcome (List Nat)
  | widths, [] => Outcome.ok widths
  | widths, player :: rest =>
    Outcome.bind (specialtyValues player) (fun specialtyColumns =>
      Outcome.bind (getRow specialtyColumns player t) (fun row =>
        Outcome.bind (updateColumnWidths widths row) (fun widths2 =>
          computeWidthsLoop specialtyValues t widths2 rest)))

/-- `stream << setw(width) << string`: right-justified space padding. -/
def padTo (width : Nat) (s : String) : String :=
  String.mk (List.replicate (width - s.length) ' ') ++ s

/-- printRow: emit each cell padded to its column width followed by a tab.
The width iterator is advanced without a bounds check; running past the end
of the widths is undefined behavior (Outcome.undef). -/
def printRow : List String → List Nat → Outcome String
  | [], _ => Outcome.ok ""
  | _ :: _, [] => Outcome.undef
  | s :: ss, w :: ws =>
    Outcome.bind (printRow ss ws) (fun rest =>
      Outcome.ok (padTo w s ++ "\t" ++ rest))

/-- The output loop of printChecklist: a newline before every row, one more
between players whose accelerated scores differ (and before the first). -/
def printPlayersLoop (specialtyValues : Player → Outcome (List String))
    (t : Tournament) (widths : List Nat) :
    Option Player → List Player → Outcome String
  | _, [] => Outcome.ok ""
  | previousPlayer, player :: rest =>
    Outcome.bind (specialtyValues player) (fun specialtyColumns =>
      Outcome.bind (getRow specialtyColumns player t) (fun row =>
        Outcome.bind (printRow row widths) (fun rowText =>
          Outcome.bind
            (printPlayersLoop specialtyValues t widths (Option.some player) rest)
            (fun restText =>
              Outcome.ok ("\n"
                ++ (match previousPlayer with
                    | Option.none => "\n"
                    | Option.some prev =>
                      if prev.scoreWithAcceleration ≠ player.scoreWithAcceleration
                      then "\n" else "")
                ++ rowText ++ restText)))))

/-- The body of the try block of printChecklist: compute the column widths,
then print the header and the player rows. -/
def checklistBody (specialtyHeaders : List String)
    (specialtyValues : Player → Outcome (List String)) (t : Tournament)
    (orderedPlayers : List Player) : Outcome String :=
  Outcome.bind (getHeader specialtyHeaders t) (fun header =>
    Outcome.bind (initialWidths header) (fun widths0 =>
      Outcome.bind (computeWidthsLoop specialtyValues t widths0 orderedPlayers)
        (fun widths =>
          Outcome.bind (getHeader specialtyHeaders t) (fun header2 =>
            Outcome.bind (printRow header2 widths) (fun headerText =>
              Outcome.bind
                (printPlayersLoop specialtyValues t widths Option.none
                  orderedPlayers)
                (fun bodyText =>
                  Outcome.ok ("\n" ++ headerText ++ bodyText)))))))

/-- The one-line messages of the two catch blocks of printChecklist. -/
def errorMessage : ReportError → String
  | ReportError.lengthError =>
    "Error: The build does not support checklists for tournaments this large."
  | ReportError.badAlloc =>
    "Error: There was not enough memory to construct the checklist."

/-- printChecklist: the try body with the two catch blocks substituting a
one-line message, followed by the three trailing newlines written outside
the try/catch. An assertion failure or out-of-range access aborts instead
(Option.none). -/
def printChecklist (specialtyHeaders : List String)
    (specialtyValues : Player → Outcome (List String)) (t : Tournament)
    (orderedPlayers : List Player) : Option String :=
  match checklistBody specialtyHeaders specialtyValues t orderedPlayers with
  | Outcome.ok body => Option.some (body ++ "\n\n\n")
  | Outcome.err e => Option.some (errorMessage e ++ "\n\n\n")
  | Outcome.undef => Option.none

/-- Modelled from the spec: swisssystems::SwissSystem, the enumerated
system identifier, is declared in swisssystems/common.h, which is not among
the sources under study. The spec states the set of variants is closed and
known at build time, with BURSTEIN the only supported one; OTHER stands for
any identifier of the enumeration other than BURSTEIN. -/
inductive SwissSystem where
  | BURSTEIN
  | OTHER
deriving DecidableEq

/-- Modelled from the spec: swisssystems::Info is the per-variant capability
interface (specialty header/column providers); the Burstein implementation
lives in burstein.h / burstein.cpp, outside the sources under study, so only
the identity of the Info object is modelled. -/
inductive Info where
  | burstein
deriving DecidableEq

/-- The burstein::BursteinInfo constant instance. -/
def bursteinInfo : Info := Info.burstein

/-- getInfo: switch on the SwissSystem identifier; the default branch runs
assert(false), a fatal contract violation, modelled as Option.none. -/
def getInfo : SwissSystem → Option Info
  | SwissSystem.BURSTEIN => Option.some bursteinInfo
  | _ => Option.none

/-- A player with a given id, unaccelerated score, and rank index (no
matches, no color preference). -/
def scorePlayer (playerId score rank : Nat) : Player :=
  { id := playerId, scoreWithoutAcceleration := score,
    scoreWithAcceleration := score, rankIndex := rank,
    colorPreference := Color.none, absoluteColorPreference := false,
    strongColorPreference := false, «matches» := [] }

/-- A concrete unaccelerated-score-rank comparison for the worked examples:
a orders below b when a's unaccelerated score is smaller, the (unique) rank
index breaking ties. It mirrors the shape of
tournament::unacceleratedScoreRankCompare declared in tournament.h (outside
the sources under study); the claim theorems themselves only assume an
abstract comparison. -/
def scoreRankCmp (a b : Player) : Bool :=
  decide (a.scoreWithoutAcceleration < b.scoreWithoutAcceleration) ||
    (a.scoreWithoutAcceleration == b.scoreWithoutAcceleration &&
      decide (b.rankIndex < a.rankIndex))

/-- Five players: scores 5, 3, 4, 4, 6 with standings ranks 1, 4, 2, 3, 0. -/
def exampleTournament : Tournament :=
  { players :=
      [scorePlayer 0 5 1, scorePlayer 1 3 4, scorePlayer 2 4 2,
        scorePlayer 3 4 3, scorePlayer 4 6 0],
    playedRounds := 0 }

/-- The pairing with unaccelerated scores 5 vs 3. -/
def pair53 : Pairing := { white := 0, black := 1 }

/-- The pairing with unaccelerated scores 4 vs 4. -/
def pair44 : Pairing := { white := 2, black := 3 }

/-- The bye of the player with score 6. -/
def byePair : Pairing := { white := 4, black := 4 }

/-- Player A of the scanner example: played colors most-recent-first are
[white, black, white]. -/
def examplePlayerA : Player :=
  { id := 0, scoreWithoutAcceleration := 0, scoreWithAcceleration := 0,
    rankIndex := 0, colorPreference := Color.none,
    absoluteColorPreference := false, strongColorPreference := false,
    «matches» :=
      [⟨1, Color.white, true⟩, ⟨2, Color.black, true⟩, ⟨3, Color.white, true⟩] }

/-- Player B of the scanner example: played colors most-recent-first are
[black, black, white]. -/
def examplePlayerB : Player :=
  { id := 1, scoreWithoutAcceleration := 0, scoreWithAcceleration := 0,
    rankIndex := 1, colorPreference := Color.none,
    absoluteColorPreference := false, strongColorPreference := false,
    «matches» :=
      [⟨0, Color.white, true⟩, ⟨2, Color.black, true⟩, ⟨3, Color.black, true⟩] }

/-! ## Lemmas and claim theorems -/

theorem playedColors_eq_matchColors (player : Player) :
    playedColors player = matchColors player.«matches».reverse := rfl

theorem matchColors_skipUnplayedGames (l : List Match) :
    matchColors (skipUnplayedGames l) = matchColors l := by
  induction l with
  | nil => rfl
  | cons m rest ih =>
    simp only [skipUnplayedGames]
    by_cases h : m.gameWasPlayed = true
    · rw [if_pos h]
    · rw [if_neg h, ih]
      simp [matchColors, List.filter_cons, h]

theorem skipUnplayedGames_head_played (l : List Match) (m : Match)
    (t : List Match) (h : skipUnplayedGames l = m :: t) :
    m.gameWasPlayed = true := by
  induction l with
  | nil => simp [skipUnplayedGames] at h
  | cons m0 rest ih =>
    simp only [skipUnplayedGames] at h
    by_cases h0 : m0.gameWasPlayed = true
    · rw [if_pos h0] at h
      rw [← (List.cons.injEq ..).mp h |>.1]
      exact h0
    · rw [if_neg h0] at h
      exact ih h

theorem dropCommonRun_nil_left (l : List Color) :
    dropCommonRun [] l = ([], l) := by
  cases l <;> rfl

theorem dropCommonRun_nil_right (l : List Color) :
    dropCommonRun l [] = (l, []) := by
  cases l <;> rfl

theorem dropCommonRun_self (l : List Color) :
    dropCommonRun l l = ([], []) := by
  induction l with
  | nil => rfl
  | cons c t ih => simp [dropCommonRun, ih]

theorem headPlayed_skip (l : List Match) : headPlayed (skipUnplayedGames l) :=
  fun m t h => skipUnplayedGames_head_played l m t h

theorem matchColors_cons_played (m : Match) (t : List Match)
    (h : m.gameWasPlayed = true) :
    matchColors (m :: t) = m.color :: matchColors t := by
  simp [matchColors, List.filter_cons, h]

theorem headColorOrNone_eq_headD (l : List Match) (h : headPlayed l) :
    headColorOrNone l = (matchColors l).headD Color.none := by
  cases l with
  | nil => rfl
  | cons m t => rw [matchColors_cons_played m t (h m t rfl)]; rfl

/-- The loop of findFirstColorDifference computes the heads of the two lists
left after dropping the common prefix of the played-color sequences. -/
theorem colorDiffLoop_spec (l0 l1 : List Match)
    (h0 : headPlayed l0) (h1 : headPlayed l1) :
    colorDiffLoop l0 l1 =
      ((dropCommonRun (matchColors l0) (matchColors l1)).1.headD Color.none,
       (dropCommonRun (matchColors l0) (matchColors l1)).2.headD Color.none) := by
  induction l0, l1 using colorDiffLoop.induct with
  | case1 l1 =>
    rw [colorDiffLoop, headColorOrNone_eq_headD l1 h1,
      show matchColors [] = [] from rfl, dropCommonRun_nil_left]
    rfl
  | case2 m0 t0 =>
    have hm0 : m0.gameWasPlayed = true := h0 m0 t0 rfl
    rw [colorDiffLoop, show matchColors [] = [] from rfl,
      dropCommonRun_nil_right, matchColors_cons_played m0 t0 hm0]
    rfl
  | case3 m0 t0 m1 t1 heq ih =>
    have hm0 : m0.gameWasPlayed = true := h0 m0 t0 rfl
    have hm1 : m1.gameWasPlayed = true := h1 m1 t1 rfl
    rw [colorDiffLoop, if_pos heq,
      ih (headPlayed_skip t0) (headPlayed_skip t1),
      matchColors_skipUnplayedGames, matchColors_skipUnplayedGames,
      matchColors_cons_played m0 t0 hm0, matchColors_cons_played m1 t1 hm1]
    simp only [dropCommonRun]
    rw [if_pos heq]
  | case4 m0 t0 m1 t1 hne =>
    have hm0 : m0.gameWasPlayed = true := h0 m0 t0 rfl
    have hm1 : m1.gameWasPlayed = true := h1 m1 t1 rfl
    rw [colorDiffLoop, if_neg hne,
      matchColors_cons_played m0 t0 hm0, matchColors_cons_played m1 t1 hm1]
    simp only [dropCommonRun]
    rw [if_neg hne]
    rfl

/-- findFirstColorDifference agrees with the declarative
most-recent-divergence description. -/
theorem findFirstColorDifference_eq_mostRecentDivergence
    (player0 player1 : Player) :
    findFirstColorDifference player0 player1 =
      mostRecentDivergence player0 player1 := by
  unfold findFirstColorDifference mostRecentDivergence
  rw [colorDiffLoop_spec _ _ (headPlayed_skip _) (headPlayed_skip _),
    matchColors_skipUnplayedGames, matchColors_skipUnplayedGames]
  rfl

theorem pairCompare_eq_keyLt (t : Tournament) (cmp : Player → Player → Bool)
    (pair0 pair1 : Pairing) :
    pairCompare t cmp pair0 pair1 =
      keyLt (pairingKey t cmp pair0) (pairingKey t cmp pair1) := rfl

theorem keyLt_asymm (x y : Bool × Nat × Nat × Nat) (h : keyLt x y = true) :
    keyLt y x = false := by
  rcases x with ⟨b0, A0, B0, C0⟩
  rcases y with ⟨b1, A1, B1, C1⟩
  rw [Bool.eq_false_iff]
  intro h2
  simp only [keyLt, tupleLt, Bool.or_eq_true, Bool.and_eq_true,
    Bool.not_eq_true', beq_iff_eq, decide_eq_true_eq] at h h2
  cases b0 <;> cases b1 <;> simp_all <;> omega

theorem keyLt_trans (x y z : Bool × Nat × Nat × Nat) (hxy : keyLt x y = true)
    (hyz : keyLt y z = true) : keyLt x z = true := by
  rcases x with ⟨b0, A0, B0, C0⟩
  rcases y with ⟨b1, A1, B1, C1⟩
  rcases z with ⟨b2, A2, B2, C2⟩
  simp only [keyLt, tupleLt, Bool.or_eq_true, Bool.and_eq_true,
    Bool.not_eq_true', beq_iff_eq, decide_eq_true_eq] at hxy hyz ⊢
  cases b0 <;> cases b1 <;> cases b2 <;> simp_all <;> omega

theorem keyLt_connex (x y : Bool × Nat × Nat × Nat) (hne : x ≠ y) :
    keyLt x y = true ∨ keyLt y x = true := by
  rcases x with ⟨b0, A0, B0, C0⟩
  rcases y with ⟨b1, A1, B1, C1⟩
  simp only [ne_eq, Prod.mk.injEq, not_and] at hne
  simp only [keyLt, tupleLt, Bool.or_eq_true, Bool.and_eq_true,
    Bool.not_eq_true', beq_iff_eq, decide_eq_true_eq]
  cases b0 <;> cases b1 <;> simp_all <;> omega

theorem keyLt_right_or (x y z : Bool × Nat × Nat × Nat)
    (h : keyLt x z = true) : keyLt x y = true ∨ keyLt y z = true := by
  by_cases heq : x = y
  · right
    rw [← heq]
    exact h
  · rcases keyLt_connex x y heq with h1 | h1
    · left
      exact h1
    · right
      exact keyLt_trans y x z h1 h

theorem pairCompare_asymm (t : Tournament) (cmp : Player → Player → Bool)
    (pair0 pair1 : Pairing) (h : pairCompare t cmp pair0 pair1 = true) :
    pairCompare t cmp pair1 pair0 = false := by
  rw [pairCompare_eq_keyLt] at h ⊢
  exact keyLt_asymm _ _ h

theorem pairCompare_trans (t : Tournament) (cmp : Player → Player → Bool)
    (pair0 pair1 pair2 : Pairing)
    (h01 : pairCompare t cmp pair0 pair1 = true)
    (h12 : pairCompare t cmp pair1 pair2 = true) :
    pairCompare t cmp pair0 pair2 = true := by
  rw [pairCompare_eq_keyLt] at h01 h12 ⊢
  exact keyLt_trans _ _ _ h01 h12

/-- The non-strict relation driving the stable sort. -/
theorem sortRel_total (t : Tournament) (cmp : Player → Player → Bool) :
    IsTotal Pairing (fun pair0 pair1 => pairCompare t cmp pair1 pair0 = false) := by
  constructor
  intro a b
  by_cases h : pairCompare t cmp b a = false
  · left
    exact h
  · right
    exact pairCompare_asymm t cmp b a (Bool.not_eq_false _ |>.mp h)

theorem sortRel_trans (t : Tournament) (cmp : Player → Player → Bool) :
    IsTrans Pairing (fun pair0 pair1 => pairCompare t cmp pair1 pair0 = false) := by
  constructor
  intro a b c hab hbc
  rw [Bool.eq_false_iff]
  intro hca
  rcases keyLt_right_or _ (pairingKey t cmp b) _
      (pairCompare_eq_keyLt t cmp c a ▸ hca) with h | h
  · rw [pairCompare_eq_keyLt] at hbc
    rw [hbc] at h
    exact Bool.false_ne_true h
  · rw [pairCompare_eq_keyLt] at hab
    rw [hab] at h
    exact Bool.false_ne_true h

/-- A non-bye pairing always compares before a bye. -/
theorem pairCompare_nonbye_bye (t : Tournament) (cmp : Player → Player → Bool)
    (pair0 pair1 : Pairing) (h0 : (pair0.white == pair0.black) = false)
    (h1 : (pair1.white == pair1.black) = true) :
    pairCompare t cmp pair0 pair1 = true := by
  simp [pairCompare, tupleLt, h0, h1]

@[simp]
theorem Outcome.bind_ok {α β : Type} (a : α) (f : α → Outcome β) :
    Outcome.bind (Outcome.ok a) f = f a := rfl

@[simp]
theorem Outcome.bind_err {α β : Type} (e : ReportError) (f : α → Outcome β) :
    Outcome.bind (Outcome.err e) f = Outcome.err e := rfl

@[simp]
theorem Outcome.bind_undef {α β : Type} (f : α → Outcome β) :
    Outcome.bind (Outcome.undef : Outcome α) f = Outcome.undef := rfl

/-- C2: findFirstColorDifference scans both match sequences most recent
round first, skips unplayed matches, advances in lockstep while the colors
agree and stops at the first backward position where they differ (or when a
scan is exhausted), returning the colors at that position; on the example
histories A = [white, black, white], B = [black, black, white]
(most-recent-first) it returns (white, black). -/
theorem findFirstColorDifference_spec :
    (∀ player0 player1 : Player,
      findFirstColorDifference player0 player1 =
        mostRecentDivergence player0 player1)
    ∧ findFirstColorDifference examplePlayerA examplePlayerB =
        (Color.white, Color.black) := by
  constructor
  · exact findFirstColorDifference_eq_mostRecentDivergence
  · rw [findFirstColorDifference_eq_mostRecentDivergence]
    decide

/-- C6: findFirstColorDifference yields no-color for an exhausted side: a
player with no played games gets Color.none (on either side), and two
players with identical played color histories get (none, none); these are
ordinary outputs. -/
theorem findFirstColorDifference_exhaustion :
    (∀ player0 player1 : Player, playedColors player0 = [] →
      (findFirstColorDifference player0 player1).1 = Color.none)
    ∧ (∀ player0 player1 : Player, playedColors player1 = [] →
      (findFirstColorDifference player0 player1).2 = Color.none)
    ∧ (∀ player0 player1 : Player,
      playedColors player0 = playedColors player1 →
      findFirstColorDifference player0 player1 = (Color.none, Color.none)) := by
  refine ⟨?_, ?_, ?_⟩
  · intro player0 player1 h
    rw [findFirstColorDifference_eq_mostRecentDivergence, mostRecentDivergence,
      h, dropCommonRun_nil_left]
    rfl
  · intro player0 player1 h
    rw [findFirstColorDifference_eq_mostRecentDivergence, mostRecentDivergence,
      h, dropCommonRun_nil_right]
    rfl
  · intro player0 player1 h
    rw [findFirstColorDifference_eq_mostRecentDivergence, mostRecentDivergence,
      h, dropCommonRun_self]
    rfl

/-- Witness for C6 at concrete inputs: a player with no games at all gets
no-color, and a player compared with itself gets (no-color, no-color). -/
theorem findFirstColorDifference_exhaustion_witness :
    (findFirstColorDifference defaultPlayer examplePlayerB).1 = Color.none
    ∧ findFirstColorDifference examplePlayerA examplePlayerA =
        (Color.none, Color.none) :=
  ⟨findFirstColorDifference_exhaustion.1 defaultPlayer examplePlayerB rfl,
    findFirstColorDifference_exhaustion.2.2 examplePlayerA examplePlayerA rfl⟩

theorem matchColors_insert_unplayed (pre suf : List Match) (m : Match)
    (hm : m.gameWasPlayed = false) :
    matchColors (pre ++ m :: suf).reverse = matchColors (pre ++ suf).reverse := by
  simp [matchColors, List.reverse_append, List.filter_append, hm]

/-- C7: matches with gameWasPlayed = false are transparent to
findFirstColorDifference: inserting such a match anywhere into either
player's history leaves the result unchanged. -/
theorem findFirstColorDifference_unplayed_transparent
    (player0 player1 : Player) (pre suf : List Match) (m : Match)
    (hm : m.gameWasPlayed = false) :
    (findFirstColorDifference { player0 with «matches» := pre ++ m :: suf }
        player1
      = findFirstColorDifference { player0 with «matches» := pre ++ suf }
          player1)
    ∧ (findFirstColorDifference player0
        { player1 with «matches» := pre ++ m :: suf }
      = findFirstColorDifference player0
          { player1 with «matches» := pre ++ suf }) := by
  have hpc :
      ∀ p : Player, playedColors { p with «matches» := pre ++ m :: suf } =
        playedColors { p with «matches» := pre ++ suf } := by
    intro p
    rw [playedColors_eq_matchColors, playedColors_eq_matchColors]
    exact matchColors_insert_unplayed pre suf m hm
  constructor
  · rw [findFirstColorDifference_eq_mostRecentDivergence,
      findFirstColorDifference_eq_mostRecentDivergence,
      mostRecentDivergence, mostRecentDivergence, hpc]
  · rw [findFirstColorDifference_eq_mostRecentDivergence,
      findFirstColorDifference_eq_mostRecentDivergence,
      mostRecentDivergence, mostRecentDivergence, hpc]

/-- Witness for C7: inserting an unplayed match into player A's history in
the middle and into player B's history does not change the scanner result. -/
theorem findFirstColorDifference_unplayed_transparent_witness :
    (findFirstColorDifference
        { examplePlayerA with «matches» :=
            [⟨7, Color.black, true⟩] ++ (⟨9, Color.white, false⟩ : Match) ::
              [⟨8, Color.white, true⟩] }
        examplePlayerB
      = findFirstColorDifference
          { examplePlayerA with «matches» :=
              [⟨7, Color.black, true⟩] ++ [⟨8, Color.white, true⟩] }
          examplePlayerB)
    ∧ (findFirstColorDifference examplePlayerA
        { examplePlayerB with «matches» :=
            [⟨7, Color.black, true⟩] ++ (⟨9, Color.white, false⟩ : Match) ::
              [⟨8, Color.white, true⟩] }
      = findFirstColorDifference examplePlayerA
          { examplePlayerB with «matches» :=
              [⟨7, Color.black, true⟩] ++ [⟨8, Color.white, true⟩] }) :=
  findFirstColorDifference_unplayed_transparent examplePlayerA examplePlayerB
    [⟨7, Color.black, true⟩] [⟨8, Color.white, true⟩]
    ⟨9, Color.white, false⟩ rfl

/-- C1 counterexample: with both pairings non-bye and the higher-ranked
player of the 4-vs-4 pairing on the *lower* unaccelerated score (4 < 5),
the 4-vs-4 pairing does NOT sort before the 5-vs-3 pairing, and the example
set does not come out in the claimed order [4v4, 5v3, bye]. -/
theorem sortResults_lower_score_first_counterexample :
    ((exampleTournament.player
        (higherInPair exampleTournament scoreRankCmp pair44)).scoreWithoutAcceleration
      < (exampleTournament.player
          (higherInPair exampleTournament scoreRankCmp pair53)).scoreWithoutAcceleration)
    ∧ (pair44.white == pair44.black) = false
    ∧ (pair53.white == pair53.black) = false
    ∧ pairCompare exampleTournament scoreRankCmp pair44 pair53 = false
    ∧ sortResults exampleTournament scoreRankCmp [pair44, pair53, byePair]
        ≠ [pair44, pair53, byePair] := by
  decide

/-- C1 (amended): among two non-bye pairings, the pairing whose
higher-ranked player has a HIGHER score-without-acceleration sorts first,
with the lower-ranked player's score-without-acceleration as the next
tie-break in the same direction; so the example set
{5-vs-3 pair, 4-vs-4 pair, bye with score 6} comes out as
[5-vs-3 pair, 4-vs-4 pair, bye]. -/
theorem sortResults_higher_score_first :
    (∀ (t : Tournament) (cmp : Player → Player → Bool)
      (pair0 pair1 : Pairing),
      (pair0.white == pair0.black) = false →
      (pair1.white == pair1.black) = false →
      ((t.player (higherInPair t cmp pair1)).scoreWithoutAcceleration <
          (t.player (higherInPair t cmp pair0)).scoreWithoutAcceleration →
        pairCompare t cmp pair0 pair1 = true)
      ∧ ((t.player (higherInPair t cmp pair1)).scoreWithoutAcceleration =
          (t.player (higherInPair t cmp pair0)).scoreWithoutAcceleration →
        (t.player (lowerInPair t cmp pair1)).scoreWithoutAcceleration <
          (t.player (lowerInPair t cmp pair0)).scoreWithoutAcceleration →
        pairCompare t cmp pair0 pair1 = true))
    ∧ sortResults exampleTournament scoreRankCmp [pair44, pair53, byePair]
        = [pair53, pair44, byePair] := by
  constructor
  · intro t cmp pair0 pair1 h0 h1
    constructor
    · intro hlt
      simp [pairCompare, tupleLt, h0, h1, hlt]
    · intro heq hlt
      simp [pairCompare, tupleLt, h0, h1, heq, hlt]
  · decide

/-- Witness for C1 (amended): the 5-vs-3 pairing (higher score 5) compares
before the 4-vs-4 pairing (higher score 4). -/
theorem sortResults_higher_score_first_witness :
    pairCompare exampleTournament scoreRankCmp pair53 pair44 = true :=
  (sortResults_higher_score_first.1 exampleTournament scoreRankCmp pair53
    pair44 (by decide) (by decide)).1 (by decide)

theorem higherInPair_mem (t : Tournament) (cmp : Player → Player → Bool)
    (pair : Pairing) :
    higherInPair t cmp pair = pair.white ∨
      higherInPair t cmp pair = pair.black := by
  unfold higherInPair
  split
  · exact Or.inr rfl
  · exact Or.inl rfl

/-- C3: assuming the external unaccelerated-score-rank comparison is a
strict total order over the tournament's players, rank indices are unique,
and the two pairings share no player, the sortResults comparator holds in
exactly one direction between distinct pairings; and it is transitive. -/
theorem pairCompare_strict_total_order :
    ∀ (t : Tournament) (cmp : Player → Player → Bool),
    (∀ i, i < t.players.length → ∀ j, j < t.players.length →
      cmp (t.player i) (t.player j) = true →
      cmp (t.player j) (t.player i) = false) →
    (∀ i, i < t.players.length → ∀ j, j < t.players.length →
      ∀ k, k < t.players.length →
      cmp (t.player i) (t.player j) = true →
      cmp (t.player j) (t.player k) = true →
      cmp (t.player i) (t.player k) = true) →
    (∀ i, i < t.players.length → ∀ j, j < t.players.length →
      cmp (t.player i) (t.player j) = false →
      cmp (t.player j) (t.player i) = false → t.player i = t.player j) →
    (∀ i, i < t.players.length → ∀ j, j < t.players.length →
      (t.player i).rankIndex = (t.player j).rankIndex → i = j) →
    (∀ pair0 pair1 : Pairing,
      pair0.white < t.players.length → pair0.black < t.players.length →
      pair1.white < t.players.length → pair1.black < t.players.length →
      pair0.white ≠ pair1.white → pair0.white ≠ pair1.black →
      pair0.black ≠ pair1.white → pair0.black ≠ pair1.black →
      pair0 ≠ pair1 →
      (pairCompare t cmp pair0 pair1 = true ∧
        pairCompare t cmp pair1 pair0 = false) ∨
      (pairCompare t cmp pair1 pair0 = true ∧
        pairCompare t cmp pair0 pair1 = false))
    ∧ (∀ pair0 pair1 pair2 : Pairing,
      pairCompare t cmp pair0 pair1 = true →
      pairCompare t cmp pair1 pair2 = true →
      pairCompare t cmp pair0 pair2 = true) := by
  intro t cmp hAsym hTrans hTotal hRank
  constructor
  · intro pair0 pair1 h0w h0b h1w h1b hww hwb hbw hbb hne
    have hb0 : higherInPair t cmp pair0 < t.players.length := by
      rcases higherInPair_mem t cmp pair0 with h | h <;> omega
    have hb1 : higherInPair t cmp pair1 < t.players.length := by
      rcases higherInPair_mem t cmp pair1 with h | h <;> omega
    have hkey : pairingKey t cmp pair0 ≠ pairingKey t cmp pair1 := by
      intro hk
      have hr := congrArg (fun k => k.2.2.2) hk
      simp only [pairingKey] at hr
      have heqi := hRank _ hb0 _ hb1 hr
      rcases higherInPair_mem t cmp pair0 with h | h <;>
        rcases higherInPair_mem t cmp pair1 with h' | h' <;> omega
    rcases keyLt_connex _ _ hkey with h | h
    · left
      constructor
      · rw [pairCompare_eq_keyLt]
        exact h
      · rw [pairCompare_eq_keyLt]
        exact keyLt_asymm _ _ h
    · right
      constructor
      · rw [pairCompare_eq_keyLt]
        exact h
      · rw [pairCompare_eq_keyLt]
        exact keyLt_asymm _ _ h
  · exact fun pair0 pair1 pair2 => pairCompare_trans t cmp pair0 pair1 pair2

/-- Witness for C3 at concrete inputs: the trichotomy instantiated on the
two disjoint non-bye pairings of the example tournament. -/
theorem pairCompare_strict_total_order_witness :
    (pairCompare exampleTournament scoreRankCmp pair53 pair44 = true ∧
      pairCompare exampleTournament scoreRankCmp pair44 pair53 = false) ∨
    (pairCompare exampleTournament scoreRankCmp pair44 pair53 = true ∧
      pairCompare exampleTournament scoreRankCmp pair53 pair44 = false) :=
  (pairCompare_strict_total_order exampleTournament scoreRankCmp
    (by decide) (by decide) (by decide) (by decide)).1 pair53 pair44
    (by decide) (by decide) (by decide) (by decide)
    (by decide) (by decide) (by decide) (by decide) (by decide)

/-- C4: in the order produced by sortResults, every bye (white == black)
comes after every non-bye pairing, regardless of scores or ranks. -/
theorem sortResults_byes_last (t : Tournament) (cmp : Player → Player → Bool)
    (pairs : List Pairing) :
    ∀ i j : Fin (sortResults t cmp pairs).length, (i : Nat) < (j : Nat) →
    (((sortResults t cmp pairs).get i).white ==
      ((sortResults t cmp pairs).get i).black) = true →
    (((sortResults t cmp pairs).get j).white ==
      ((sortResults t cmp pairs).get j).black) = true := by
  intro i j hij hbye
  haveI := sortRel_total t cmp
  haveI := sortRel_trans t cmp
  have hs :
      List.Sorted (fun pair0 pair1 => pairCompare t cmp pair1 pair0 = false)
        (sortResults t cmp pairs) :=
    List.sorted_insertionSort _ _
  have hp := List.pairwise_iff_getElem.mp hs i.1 j.1 i.2 j.2 hij
  by_cases hb :
      (((sortResults t cmp pairs).get j).white ==
        ((sortResults t cmp pairs).get j).black) = true
  · exact hb
  · exfalso
    have hb' := Bool.eq_false_iff.mpr hb
    have hcmp :=
      pairCompare_nonbye_bye t cmp ((sortResults t cmp pairs).get j)
        ((sortResults t cmp pairs).get i) hb' hbye
    rw [List.get_eq_getElem, List.get_eq_getElem] at hcmp
    rw [hcmp] at hp
    exact absurd hp (by simp)

/-- Witness for C4: in the sorted example list [non-bye, bye, bye], a bye
at position 1 forces a bye at position 2. -/
theorem sortResults_byes_last_witness :
    (((sortResults exampleTournament scoreRankCmp
        [{ white := 5, black := 5 }, byePair, pair53]).get ⟨2, by decide⟩).white ==
      ((sortResults exampleTournament scoreRankCmp
        [{ white := 5, black := 5 }, byePair, pair53]).get ⟨2, by decide⟩).black)
      = true :=
  sortResults_byes_last exampleTournament scoreRankCmp
    [{ white := 5, black := 5 }, byePair, pair53]
    ⟨1, by decide⟩ ⟨2, by decide⟩ (by decide) (by decide)

theorem beq_nat_comm (a b : Nat) : (a == b) = (b == a) := by
  by_cases h : a = b
  · subst h
    rfl
  · have h1 : (a == b) = false := beq_eq_false_iff_ne.mpr h
    have h2 : (b == a) = false := beq_eq_false_iff_ne.mpr (Ne.symm h)
    rw [h1, h2]

/-- Swapping white and black leaves the higher and lower player records of a
pairing unchanged, given that the comparison is asymmetric and decides every
pair of distinct player records. -/
theorem swapPair_players (t : Tournament) (cmp : Player → Player → Bool)
    (pair : Pairing)
    (hw : pair.white < t.players.length) (hb : pair.black < t.players.length)
    (hAsym : ∀ i, i < t.players.length → ∀ j, j < t.players.length →
      cmp (t.player i) (t.player j) = true →
      cmp (t.player j) (t.player i) = false)
    (hTotal : ∀ i, i < t.players.length → ∀ j, j < t.players.length →
      cmp (t.player i) (t.player j) = false →
      cmp (t.player j) (t.player i) = false → t.player i = t.player j) :
    t.player (higherInPair t cmp { white := pair.black, black := pair.white })
      = t.player (higherInPair t cmp pair)
    ∧ t.player (lowerInPair t cmp { white := pair.black, black := pair.white })
      = t.player (lowerInPair t cmp pair) := by
  rcases pair with ⟨w, b⟩
  simp only at hw hb
  by_cases hwb : w = b
  · subst hwb
    exact ⟨rfl, rfl⟩
  · have hwbf : (w == b) = false := beq_eq_false_iff_ne.mpr hwb
    have hbwf : (b == w) = false := beq_eq_false_iff_ne.mpr (Ne.symm hwb)
    by_cases hc1 : cmp (t.player w) (t.player b) = true
    · have hc2 : cmp (t.player b) (t.player w) = false := hAsym w hw b hb hc1
      constructor
      · simp [higherInPair, hc1, hc2]
      · simp [lowerInPair, higherInPair, hc1, hc2, hwbf, hbwf]
    · have hc1f : cmp (t.player w) (t.player b) = false :=
        Bool.eq_false_iff.mpr hc1
      by_cases hc2 : cmp (t.player b) (t.player w) = true
      · constructor
        · simp [higherInPair, hc1f, hc2]
        · simp [lowerInPair, higherInPair, hc1f, hc2, hwbf, hbwf]
      · have hc2f : cmp (t.player b) (t.player w) = false :=
          Bool.eq_false_iff.mpr hc2
        have heq := hTotal w hw b hb hc1f hc2f
        constructor
        · simp only [higherInPair]
          rw [if_neg hc2, if_neg hc1]
          exact heq.symm
        · simp only [lowerInPair, higherInPair]
          rw [if_neg hc2, if_neg hc1]
          simp only [beq_self_eq_true, if_true]
          exact heq

/-- C5: swapping the white and black indices inside one pairing does not
change how the sortResults comparator evaluates against any other pairing,
assuming the external comparison is a strict total order (asymmetric, and
deciding every pair of distinct player records) over the tournament's
players. -/
theorem pairCompare_orientation_independent :
    ∀ (t : Tournament) (cmp : Player → Player → Bool)
      (pair other : Pairing),
    pair.white < t.players.length → pair.black < t.players.length →
    (∀ i, i < t.players.length → ∀ j, j < t.players.length →
      cmp (t.player i) (t.player j) = true →
      cmp (t.player j) (t.player i) = false) →
    (∀ i, i < t.players.length → ∀ j, j < t.players.length →
      cmp (t.player i) (t.player j) = false →
      cmp (t.player j) (t.player i) = false → t.player i = t.player j) →
    pairCompare t cmp { white := pair.black, black := pair.white } other
      = pairCompare t cmp pair other
    ∧ pairCompare t cmp other { white := pair.black, black := pair.white }
      = pairCompare t cmp other pair := by
  intro t cmp pair other hw hb hAsym hTotal
  obtain ⟨hh, hl⟩ := swapPair_players t cmp pair hw hb hAsym hTotal
  constructor
  · unfold pairCompare
    rw [hh, hl]
    dsimp only
    rw [beq_nat_comm pair.black pair.white]
  · unfold pairCompare
    rw [hh, hl]
    dsimp only
    rw [beq_nat_comm pair.black pair.white]

/-- Witness for C5: swapping white and black in the 5-vs-3 pairing of the
example tournament leaves both comparator directions against the 4-vs-4
pairing unchanged. -/
theorem pairCompare_orientation_independent_witness :
    pairCompare exampleTournament scoreRankCmp
        { white := pair53.black, black := pair53.white } pair44
      = pairCompare exampleTournament scoreRankCmp pair53 pair44
    ∧ pairCompare exampleTournament scoreRankCmp pair44
        { white := pair53.black, black := pair53.white }
      = pairCompare exampleTournament scoreRankCmp pair44 pair53 :=
  pairCompare_orientation_independent exampleTournament scoreRankCmp pair53
    pair44 (by decide) (by decide) (by decide) (by decide)

/-- C8: when checklist assembly throws (representation-size failure or
memory exhaustion), printChecklist substitutes the corresponding single
newline-free message for the report body, still ends the stream with the
trailing newlines, and propagates nothing; every output the function
produces ends with the three trailing newlines. -/
theorem printChecklist_error_boundary :
    ∀ (specialtyHeaders : List String)
      (specialtyValues : Player → Outcome (List String)) (t : Tournament)
      (orderedPlayers : List Player),
    (∀ e : ReportError,
      checklistBody specialtyHeaders specialtyValues t orderedPlayers =
        Outcome.err e →
      printChecklist specialtyHeaders specialtyValues t orderedPlayers =
        Option.some (errorMessage e ++ "\n\n\n")
      ∧ ¬ ('\n' ∈ (errorMessage e).data))
    ∧ (∀ out : String,
      printChecklist specialtyHeaders specialtyValues t orderedPlayers =
        Option.some out → ∃ s : String, out = s ++ "\n\n\n") := by
  intro specialtyHeaders specialtyValues t orderedPlayers
  constructor
  · intro e he
    constructor
    · unfold printChecklist
      rw [he]
    · cases e <;> decide
  · intro out hout
    unfold printChecklist at hout
    cases hbody : checklistBody specialtyHeaders specialtyValues t
        orderedPlayers with
    | ok body =>
      rw [hbody] at hout
      exact ⟨body, (Option.some.inj hout).symm⟩
    | err e =>
      rw [hbody] at hout
      exact ⟨errorMessage e, (Option.some.inj hout).symm⟩
    | undef =>
      rw [hbody] at hout
      exact Option.noConfusion hout

/-- Witness for C8: a tournament whose played-round count reaches
std::string::npos makes getHeader throw std::length_error, and the output
degrades to the one-line message plus the trailing newlines. -/
theorem printChecklist_error_boundary_witness :
    printChecklist [] (fun _ => Outcome.ok [])
        { players := [], playedRounds := nposVal } [] =
      Option.some (errorMessage ReportError.lengthError ++ "\n\n\n")
    ∧ ¬ ('\n' ∈ (errorMessage ReportError.lengthError).data) :=
  (printChecklist_error_boundary [] (fun _ => Outcome.ok [])
    { players := [], playedRounds := nposVal } []).1 ReportError.lengthError
    (by decide)

theorem roundColumns_no_err (player : Player) :
    ∀ (n : Nat) (e : ReportError), roundColumns player n ≠ Outcome.err e := by
  intro n
  induction n with
  | zero => exact fun e h => Outcome.noConfusion h
  | succ n ih =>
    intro e h
    unfold roundColumns at h
    cases hr : roundColumns player n with
    | ok cells =>
      rw [hr, Outcome.bind_ok] at h
      cases hg : player.«matches».get? n with
      | some m =>
        rw [hg] at h
        exact Outcome.noConfusion h
      | none =>
        rw [hg] at h
        exact Outcome.noConfusion h
    | err e2 => exact ih e2 hr
    | undef =>
      rw [hr, Outcome.bind_undef] at h
      exact Outcome.noConfusion h

theorem roundColumns_undef_iff (player : Player) :
    ∀ n : Nat, roundColumns player n = Outcome.undef ↔
      player.«matches».length < n := by
  intro n
  induction n with
  | zero => simp [roundColumns]
  | succ n ih =>
    constructor
    · intro h
      unfold roundColumns at h
      cases hr : roundColumns player n with
      | ok cells =>
        rw [hr, Outcome.bind_ok] at h
        cases hg : player.«matches».get? n with
        | some m =>
          rw [hg] at h
          exact Outcome.noConfusion h
        | none =>
          have := List.get?_eq_none.mp hg
          omega
      | err e => exact absurd hr (roundColumns_no_err player n e)
      | undef =>
        have := ih.mp hr
        omega
    · intro h
      unfold roundColumns
      cases hr : roundColumns player n with
      | ok cells =>
        rw [Outcome.bind_ok]
        have hge : ¬ player.«matches».length < n := by
          intro hlt
          have h2 := ih.mpr hlt
          rw [h2] at hr
          exact Outcome.noConfusion hr
        have hg : player.«matches».get? n = Option.none :=
          List.get?_eq_none.mpr (by omega)
        rw [hg]
      | err e => exact absurd hr (roundColumns_no_err player n e)
      | undef => rw [Outcome.bind_undef]

theorem getRow_undef_iff (specialtyColumns : List String) (player : Player)
    (t : Tournament) :
    getRow specialtyColumns player t = Outcome.undef ↔
      player.«matches».length < t.playedRounds := by
  unfold getRow
  cases hr : roundColumns player t.playedRounds with
  | ok cells =>
    rw [Outcome.bind_ok]
    constructor
    · intro h
      exact Outcome.noConfusion h
    · intro h
      have h2 := (roundColumns_undef_iff player t.playedRounds).mpr h
      rw [h2] at hr
      exact Outcome.noConfusion hr
  | err e => exact absurd hr (roundColumns_no_err player t.playedRounds e)
  | undef =>
    rw [Outcome.bind_undef]
    constructor
    · intro _
      exact (roundColumns_undef_iff player t.playedRounds).mp hr
    · intro _
      rfl

/-- C10: the per-round column loop of getRow indexes player.matches without
a bounds check for every roundIndex below playedRounds, so the row stays
defined exactly when the player has at least playedRounds matches; feeding
printChecklist a player whose history is shorter runs into undefined
behavior (here Option.none) — an unstated precondition of the function. -/
theorem getRow_requires_full_history :
    (∀ (specialtyColumns : List String) (player : Player) (t : Tournament),
      getRow specialtyColumns player t = Outcome.undef ↔
        player.«matches».length < t.playedRounds)
    ∧ printChecklist [] (fun _ => Outcome.ok [])
        { players := [defaultPlayer], playedRounds := 1 } [defaultPlayer] =
      Option.none := by
  constructor
  · exact getRow_undef_iff
  · decide

/-- C9: getInfo yields the Burstein Info object for BURSTEIN; any other
identifier runs into assert(false), a fatal halt (modelled Option.none),
rather than a usable Info object or a recoverable error. -/
theorem getInfo_unsupported_fatal :
    getInfo SwissSystem.BURSTEIN = Option.some bursteinInfo
    ∧ ∀ s : SwissSystem, s ≠ SwissSystem.BURSTEIN →
        getInfo s = Option.none := by
  constructor
  · rfl
  · intro s hs
    cases s with
    | BURSTEIN => exact absurd rfl hs
    | OTHER => rfl

/-- Witness for C9: the non-Burstein identifier halts. -/
theorem getInfo_unsupported_fatal_witness :
    getInfo SwissSystem.OTHER = Option.none :=
  getInfo_unsupported_fatal.2 SwissSystem.OTHER (by decide)
